import Mathlib

/-!
Shallow embedding of the permission-resolver core of
`src/IAMRolesAnywhere/pipeline-deploy.py` (the repository's single source
file): the static resource-type → IAM-permission table, the two baseline
permission lists, and the template-analysis logic of
`analyze_template_content_and_create_role` (lines 163–199), together with
the dual-format parse fallback (JSON first, YAML second) of lines 164–172.
-/

namespace PipelineDeploy

/-- A parsed JSON/YAML document, as produced by Python's `json.loads` or
`yaml.safe_load`: null, booleans, numbers, strings, arrays, and objects
(insertion-ordered mappings with unique keys, modelled as association
lists). Numbers are modelled as integers; no claim depends on
floating-point. -/
inductive Value where
  | null : Value
  | bool (b : Bool) : Value
  | num (n : Int) : Value
  | str (s : String) : Value
  | arr (xs : List Value) : Value
  | obj (kvs : List (String × Value)) : Value

/-- Python `dict.get(key)` on a parsed object: the value at `key`, or
`None` when absent (keys of a parsed dict are unique, so first match is
the only match). -/
def lookupKey : List (String × Value) → String → Option Value
  | [], _ => none
  | (k, v) :: rest, key => if k = key then some v else lookupKey rest key

/-- Python truthiness of a parsed value (`if resource_type:` at line 180):
`None`, `False`, `0`, `""`, `[]` and `{}` are falsy. -/
def truthy : Value → Bool
  | .null => false
  | .bool b => b
  | .num n => n ≠ 0
  | .str s => s ≠ ""
  | .arr xs => ¬xs.isEmpty
  | .obj kvs => ¬kvs.isEmpty

/-- Whether a parsed value is hashable in Python: lists and dicts are not,
so `set.add` raises `TypeError` on them (caught by the catch-all handler
at line 255). -/
def hashable : Value → Bool
  | .arr _ => false
  | .obj _ => false
  | _ => true

/-- Whether a parsed value is a Python `str` (`', '.join` at line 184
raises `TypeError` on any non-string element). -/
def isStr : Value → Bool
  | .str _ => true
  | _ => false

/-- The string carried by a `str` value (`""` otherwise; only applied to
values satisfying `isStr`). -/
def strVal : Value → String
  | .str s => s
  | _ => ""

/-- `CFN_RESOURCE_TO_IAM_MAPPING` (lines 14–115): the static table from
CloudFormation resource types to the IAM permissions they require. -/
def CFN_RESOURCE_TO_IAM_MAPPING : List (String × List String) :=
  [ ("AWS::S3::Bucket",
     [ "s3:CreateBucket",
       "s3:DeleteBucket",
       "s3:PutBucketPolicy",
       "s3:DeleteBucketPolicy",
       "s3:PutEncryptionConfiguration",
       "s3:GetEncryptionConfiguration",
       "s3:ListBucket",
       "s3:GetObject",
       "s3:PutObject",
       "s3:DeleteObject" ]),
    ("AWS::Lambda::Function",
     [ "lambda:CreateFunction",
       "lambda:DeleteFunction",
       "lambda:GetFunction",
       "lambda:GetFunctionConfiguration",
       "lambda:UpdateFunctionCode",
       "lambda:UpdateFunctionConfiguration",
       "lambda:AddPermission",
       "lambda:RemovePermission" ]),
    ("AWS::IAM::Role",
     [ "iam:CreateRole",
       "iam:DeleteRole",
       "iam:GetRole",
       "iam:PassRole",
       "iam:PutRolePolicy",
       "iam:DeleteRolePolicy",
       "iam:AttachRolePolicy",
       "iam:DetachRolePolicy",
       "iam:UpdateRole",
       "iam:UpdateAssumeRolePolicy" ]),
    ("AWS::IAM::ManagedPolicy",
     [ "iam:CreatePolicy",
       "iam:DeletePolicy",
       "iam:GetPolicy",
       "iam:GetPolicyVersion",
       "iam:CreatePolicyVersion",
       "iam:DeletePolicyVersion",
       "iam:SetDefaultPolicyVersion" ]),
    ("AWS::DynamoDB::Table",
     [ "dynamodb:CreateTable",
       "dynamodb:DeleteTable",
       "dynamodb:DescribeTable",
       "dynamodb:UpdateTable" ]),
    ("AWS::EC2::Instance",
     [ "ec2:RunInstances",
       "ec2:TerminateInstances",
       "ec2:DescribeInstances",
       "ec2:CreateTags" ]),
    ("AWS::SNS::Topic",
     [ "sns:CreateTopic",
       "sns:DeleteTopic",
       "sns:GetTopicAttributes",
       "sns:SetTopicAttributes" ]),
    ("AWS::SQS::Queue",
     [ "sqs:CreateQueue",
       "sqs:DeleteQueue",
       "sqs:GetQueueAttributes",
       "sqs:SetQueueAttributes" ]),
    ("AWS::ACMPCA::CertificateAuthority",
     [ "acm-pca:CreateCertificateAuthority",
       "acm-pca:DeleteCertificateAuthority",
       "acm-pca:DescribeCertificateAuthority",
       "acm-pca:UpdateCertificateAuthority",
       "acm-pca:GetCertificateAuthorityCertificate",
       "acm-pca:GetCertificateAuthorityCsr",
       "acm-pca:TagResource" ]),
    ("AWS::ACMPCA::Certificate",
     [ "acm-pca:IssueCertificate",
       "acm-pca:GetCertificate",
       "acm-pca:RevokeCertificate" ]),
    ("AWS::ACMPCA::CertificateAuthorityActivation",
     [ "acm-pca:ImportCertificateAuthorityCertificate",
       "acm-pca:UpdateCertificateAuthority" ]),
    ("AWS::RolesAnywhere::TrustAnchor",
     [ "rolesanywhere:CreateTrustAnchor",
       "rolesanywhere:DeleteTrustAnchor",
       "rolesanywhere:GetTrustAnchor",
       "rolesanywhere:UpdateTrustAnchor",
       "rolesanywhere:TagResource" ]),
    ("AWS::RolesAnywhere::Profile",
     [ "rolesanywhere:CreateProfile",
       "rolesanywhere:DeleteProfile",
       "rolesanywhere:GetProfile",
       "rolesanywhere:UpdateProfile",
       "rolesanywhere:TagResource" ]) ]

/-- `CLOUDFORMATION_PERMISSIONS` (lines 118–126): baseline stack
orchestration permissions, always included. -/
def CLOUDFORMATION_PERMISSIONS : List String :=
  [ "cloudformation:CreateStack",
    "cloudformation:DeleteStack",
    "cloudformation:DescribeStacks",
    "cloudformation:UpdateStack",
    "cloudformation:ValidateTemplate",
    "cloudformation:GetTemplate",
    "cloudformation:GetTemplateSummary" ]

/-- `PIPELINE_PERMISSIONS` (lines 129–145): baseline pipeline
permissions, always included. -/
def PIPELINE_PERMISSIONS : List String :=
  [ "codepipeline:CreatePipeline",
    "codepipeline:DeletePipeline",
    "codepipeline:GetPipeline",
    "codepipeline:GetPipelineState",
    "codepipeline:StartPipelineExecution",
    "codepipeline:TagResource",
    "codestar-connections:UseConnection",
    "s3:CreateBucket",
    "s3:DeleteBucket",
    "s3:GetObject",
    "s3:PutObject",
    "s3:DeleteObject" ]

/-- Lookup in the static table (`resource_type in CFN_RESOURCE_TO_IAM_MAPPING`
followed by `CFN_RESOURCE_TO_IAM_MAPPING[resource_type]`, lines 194–195). -/
def tableLookup : List (String × List String) → String → Option (List String)
  | [], _ => none
  | (k, ps) :: rest, key => if k = key then some ps else tableLookup rest key

/-- The three distinct failure-reporting paths of
`analyze_template_content_and_create_role`: the template parsed by neither
strategy (line 171), no resources found (line 186), and the catch-all
`except Exception` at line 255 that intercepts `AttributeError`/`TypeError`
raised while analysing a parsed document of unexpected shape. All three
return `None` to the caller but print distinct diagnostics. -/
inductive ErrorKind where
  | TemplateParseFailure : ErrorKind
  | EmptyTemplate : ErrorKind
  | AnalysisError : ErrorKind
  deriving DecidableEq

/-- The resource-type extraction loop (lines 178–181): for each resource
declaration, read its `Type` field (`resource_def.get('Type')`, raising
`AttributeError` when the declaration is not a dict) and, when truthy, add
it to the running set (`set.add` raising `TypeError` on unhashable
values). The collected types are returned as a list with duplicates;
every consumer below uses only the underlying set. -/
def extractTypes : List (String × Value) → Except ErrorKind (List Value)
  | [] => .ok []
  | (_, d) :: rest =>
    match d with
    | .obj dkvs =>
      match lookupKey dkvs "Type" with
      | some t =>
        if truthy t then
          if hashable t then
            match extractTypes rest with
            | .ok ts => .ok (t :: ts)
            | .error e => .error e
          else .error .AnalysisError
        else extractTypes rest
      | none => extractTypes rest
    | _ => .error .AnalysisError

/-- The string resource types among the collected type values (on the
success path all collected types are strings). -/
def asStrings (ts : List Value) : List String :=
  ts.filterMap fun v =>
    match v with
    | .str s => some s
    | _ => none

/-- Lines 190–197: the needed-permission set, seeded with the two baseline
lists and unioned with the table entry of every known resource type. -/
def neededPermissions (types : List String) : Finset String :=
  types.foldl
    (fun acc t => acc ∪ ((tableLookup CFN_RESOURCE_TO_IAM_MAPPING t).getD []).toFinset)
    (CLOUDFORMATION_PERMISSIONS.toFinset ∪ PIPELINE_PERMISSIONS.toFinset)

/-- Line 197: the resource types warned about as having no permission
mapping (`UnknownTypes` in the spec's contract). -/
def unknownTypes (types : List String) : Finset String :=
  (types.filter fun t => (tableLookup CFN_RESOURCE_TO_IAM_MAPPING t).isNone).toFinset

/-- Lines 183–199, after type extraction: report `EmptyTemplate` when no
truthy resource type was found; otherwise line 184 joins the types for
printing, raising `TypeError` (caught as the generic analysis error) when
any is not a string; otherwise build the permission set and the
unknown-type warnings. -/
def finishAnalysis (ts : List Value) :
    Except ErrorKind (Finset String × Finset String) :=
  if ts.isEmpty then .error .EmptyTemplate
  else if ts.all isStr then
    .ok (neededPermissions (asStrings ts), unknownTypes (asStrings ts))
  else .error .AnalysisError

/-- Type extraction followed by permission resolution over the entries of
the `Resources` mapping. -/
def analyzeResources (rkvs : List (String × Value)) :
    Except ErrorKind (Finset String × Finset String) :=
  match extractTypes rkvs with
  | .ok ts => finishAnalysis ts
  | .error e => .error e

/-- Lines 175–199 of `analyze_template_content_and_create_role` on an
already-parsed document: `template.get('Resources', {})` (raising
`AttributeError` on a non-dict document), iteration over its items
(raising on a non-dict `Resources` value), then resolution. The result is
the `needed_permissions` set together with the set of unmapped types
warned about. -/
def analyzeTemplate (template : Value) :
    Except ErrorKind (Finset String × Finset String) :=
  match template with
  | .obj kvs =>
    match (lookupKey kvs "Resources").getD (.obj []) with
    | .obj rkvs => analyzeResources rkvs
    | _ => .error .AnalysisError
  | _ => .error .AnalysisError

/-- The raw template text, abstracted by the outcomes of the two external
parsers the script invokes: `jsonParse` is the result of `json.loads`
(`none` when it raises `JSONDecodeError`), `yamlParse` the result of
`yaml.safe_load` (`none` when it raises `YAMLError`). The parsers are
library code outside this repository; only their success/failure and
parsed value matter to the analysis. -/
structure TemplateInput where
  jsonParse : Option Value
  yamlParse : Option Value

/-- Lines 164–199: the resolver. Try the JSON parse first; on failure fall
back to the YAML parse; when both fail report `TemplateParseFailure`
(line 171); otherwise analyse the parsed document. -/
def resolve (inp : TemplateInput) :
    Except ErrorKind (Finset String × Finset String) :=
  match inp.jsonParse with
  | some v => analyzeTemplate v
  | none =>
    match inp.yamlParse with
    | some v => analyzeTemplate v
    | none => .error .TemplateParseFailure

/-- Line 199's presentation of the permission set:
`sorted(needed_permissions)`. -/
def printedPermissions (perms : Finset String) : List String :=
  perms.sort (· ≤ ·)

/-- Line 232's `"Action": list(needed_permissions)`: Python enumerates the
set in an unspecified, hash-dependent order (string hashing is randomized
per process), so the Action list is modelled as an arbitrary
duplicate-free enumeration of the permission set. -/
def IsActionList (perms : Finset String) (l : List String) : Prop :=
  l.Nodup ∧ l.toFinset = perms

/-- The document the resolver ends up analysing: the JSON parse when it
succeeds, otherwise the YAML parse (lines 165–169). -/
def parsesTo (inp : TemplateInput) (v : Value) : Prop :=
  inp.jsonParse = some v ∨ (inp.jsonParse = none ∧ inp.yamlParse = some v)

/-- A resource declaration of the shape the analysis loop expects: a dict
whose `Type` field, when present and truthy, is a string. -/
def wellShapedResource : Value → Bool
  | .obj dkvs =>
    match lookupKey dkvs "Type" with
    | some t => !truthy t || isStr t
    | none => true
  | _ => false

/-- A parsed document of the shape the analysis expects: a dict whose
`Resources` value (defaulting to the empty dict) is a dict of well-shaped
resource declarations. -/
def wellShaped : Value → Bool
  | .obj kvs =>
    match (lookupKey kvs "Resources").getD (.obj []) with
    | .obj rkvs => rkvs.all fun p => wellShapedResource p.2
    | _ => false
  | _ => false

/-- A concrete template with a single storage-bucket resource, used to
instantiate the universally quantified theorems below. -/
def s3Template : Value :=
  .obj [("Resources", .obj [("MyBucket", .obj [("Type", .str "AWS::S3::Bucket")])])]

/-- The `s3Template` document offered to the resolver via a successful
JSON parse. -/
def s3Input : TemplateInput :=
  ⟨some s3Template, none⟩

/-- The permission set the resolver computes for `s3Template`: both
baselines united with the table entry for `AWS::S3::Bucket`. -/
def s3Perms : Finset String :=
  CLOUDFORMATION_PERMISSIONS.toFinset ∪ PIPELINE_PERMISSIONS.toFinset ∪
    ((tableLookup CFN_RESOURCE_TO_IAM_MAPPING "AWS::S3::Bucket").getD []).toFinset

/-- An enumeration of `s3Perms` in reverse-sorted order: one of the
orders Python's `list(needed_permissions)` may produce. -/
def revActionList : List String :=
  [ "s3:PutObject", "s3:PutEncryptionConfiguration", "s3:PutBucketPolicy",
    "s3:ListBucket", "s3:GetObject", "s3:GetEncryptionConfiguration",
    "s3:DeleteObject", "s3:DeleteBucketPolicy", "s3:DeleteBucket",
    "s3:CreateBucket", "codestar-connections:UseConnection",
    "codepipeline:TagResource", "codepipeline:StartPipelineExecution",
    "codepipeline:GetPipelineState", "codepipeline:GetPipeline",
    "codepipeline:DeletePipeline", "codepipeline:CreatePipeline",
    "cloudformation:ValidateTemplate", "cloudformation:UpdateStack",
    "cloudformation:GetTemplateSummary", "cloudformation:GetTemplate",
    "cloudformation:DescribeStacks", "cloudformation:DeleteStack",
    "cloudformation:CreateStack" ]

/-- A resource declaration the extraction loop traverses without raising:
a dict whose `Type` field, when present and truthy, is hashable. -/
def goodEntry (p : String × Value) : Bool :=
  match p.2 with
  | .obj dkvs =>
    match lookupKey dkvs "Type" with
    | some t => !truthy t || hashable t
    | none => true
  | _ => false

/-- The truthy resource type a declaration contributes to the collected
set, if any. -/
def entryType (p : String × Value) : Option Value :=
  match p.2 with
  | .obj dkvs =>
    match lookupKey dkvs "Type" with
    | some t => if truthy t then some t else none
    | none => none
  | _ => none

/-- Characterization of the extraction loop: it succeeds exactly when
every declaration is traversable, and then collects the truthy `Type`
values in order. -/
theorem extractTypes_eq (rkvs : List (String × Value)) :
    extractTypes rkvs =
      if rkvs.all goodEntry then .ok (rkvs.filterMap entryType)
      else .error .AnalysisError := by
  induction rkvs with
  | nil => simp [extractTypes]
  | cons p rest ih =>
    obtain ⟨n, d⟩ := p
    match d with
    | .null | .bool _ | .num _ | .str _ | .arr _ =>
      simp [extractTypes, goodEntry]
    | .obj dkvs =>
      rw [extractTypes]
      cases hT : lookupKey dkvs "Type" with
      | none =>
        simp only [List.all_cons, List.filterMap_cons, goodEntry, entryType, hT,
          Bool.true_and, ih]
      | some t =>
        by_cases ht : truthy t
        · by_cases hh : hashable t
          · simp only [ht, hh, if_true, ih, List.all_cons, List.filterMap_cons,
              goodEntry, entryType, hT, Bool.not_true, Bool.false_or, Bool.true_and]
            by_cases hall : rest.all goodEntry
            · simp [hall, ht]
            · simp [hall]
          · simp only [ht, hh, if_true, if_false, List.all_cons, goodEntry, hT,
              Bool.not_true, Bool.false_or, Bool.false_and, if_neg]
            simp
        · have ht' : truthy t = false := by simp [ht]
          simp only [ht', if_false, ih, List.all_cons, List.filterMap_cons,
            goodEntry, entryType, hT, Bool.not_false, Bool.true_or, Bool.true_and]
          simp [ht']

/-- `analyzeResources` through the characterization of `extractTypes`. -/
theorem analyzeResources_eq (rkvs : List (String × Value)) :
    analyzeResources rkvs =
      if rkvs.all goodEntry then finishAnalysis (rkvs.filterMap entryType)
      else .error .AnalysisError := by
  rw [analyzeResources, extractTypes_eq]
  by_cases h : rkvs.all goodEntry <;> simp [h]

/-- A string is among the collected type strings exactly when the
corresponding string value is among the collected types. -/
theorem mem_asStrings (s : String) (ts : List Value) :
    s ∈ asStrings ts ↔ Value.str s ∈ ts := by
  constructor
  · intro h
    obtain ⟨v, hv, hs⟩ := List.mem_filterMap.mp h
    match v with
    | .str s' =>
      obtain rfl : s' = s := by simpa using hs
      exact hv
    | .null | .bool _ | .num _ | .arr _ | .obj _ => simp at hs
  · intro h
    exact List.mem_filterMap.mpr ⟨.str s, h, rfl⟩

/-- Two lists with the same members agree on `List.all`. -/
theorem all_eq_of_mem_iff {α : Type} {l₁ l₂ : List α} (p : α → Bool)
    (h : ∀ a, a ∈ l₁ ↔ a ∈ l₂) : l₁.all p = l₂.all p := by
  rw [Bool.eq_iff_iff, List.all_eq_true, List.all_eq_true]
  constructor
  · intro H a ha
    exact H a ((h a).mpr ha)
  · intro H a ha
    exact H a ((h a).mp ha)

/-- Two lists with the same members agree on `List.isEmpty`. -/
theorem isEmpty_eq_of_mem_iff {α : Type} {l₁ l₂ : List α}
    (h : ∀ a, a ∈ l₁ ↔ a ∈ l₂) : l₁.isEmpty = l₂.isEmpty := by
  cases l₁ with
  | nil =>
    cases l₂ with
    | nil => rfl
    | cons b tl => exact absurd ((h b).mpr (List.mem_cons_self b tl)) (by simp)
  | cons a tl =>
    cases l₂ with
    | nil => exact absurd ((h a).mp (List.mem_cons_self a tl)) (by simp)
    | cons b tl' => rfl

/-- Folding set union over a list starts from the seed and adds the union
of the images of the list's members. -/
theorem foldl_union (f : String → Finset String) (init : Finset String)
    (ss : List String) :
    ss.foldl (fun acc t => acc ∪ f t) init = init ∪ ss.toFinset.biUnion f := by
  induction ss generalizing init with
  | nil => simp
  | cons t ss ih =>
    rw [List.foldl_cons, ih, List.toFinset_cons, Finset.biUnion_insert,
      Finset.union_assoc]

/-- The permission set is the two baselines united with the table entries
of the declared types. -/
theorem neededPermissions_eq (ss : List String) :
    neededPermissions ss =
      CLOUDFORMATION_PERMISSIONS.toFinset ∪ PIPELINE_PERMISSIONS.toFinset ∪
        ss.toFinset.biUnion
          (fun t => ((tableLookup CFN_RESOURCE_TO_IAM_MAPPING t).getD []).toFinset) := by
  rw [neededPermissions, foldl_union]

/-- Membership in the unknown-type warnings: declared and unmapped. -/
theorem mem_unknownTypes (s : String) (ss : List String) :
    s ∈ unknownTypes ss ↔
      s ∈ ss ∧ tableLookup CFN_RESOURCE_TO_IAM_MAPPING s = none := by
  rw [unknownTypes]
  simp [List.mem_filter, Option.isNone_iff_eq_none]

/-- The tail of the analysis depends only on the set of collected types:
two collections with the same members resolve identically. -/
theorem finishAnalysis_congr {ts₁ ts₂ : List Value}
    (h : ∀ v, v ∈ ts₁ ↔ v ∈ ts₂) : finishAnalysis ts₁ = finishAnalysis ts₂ := by
  have hstr : ∀ s, s ∈ asStrings ts₁ ↔ s ∈ asStrings ts₂ := by
    intro s
    rw [mem_asStrings, mem_asStrings]
    exact h _
  have hsetstr : (asStrings ts₁).toFinset = (asStrings ts₂).toFinset := by
    apply Finset.ext
    intro s
    rw [List.mem_toFinset, List.mem_toFinset]
    exact hstr s
  rw [finishAnalysis, finishAnalysis, isEmpty_eq_of_mem_iff h,
    all_eq_of_mem_iff isStr h]
  by_cases h₁ : ts₂.isEmpty
  · simp [h₁]
  · simp only [h₁, if_false]
    by_cases h₂ : ts₂.all isStr
    · simp only [h₂, if_true]
      have hperm : neededPermissions (asStrings ts₁) =
          neededPermissions (asStrings ts₂) := by
        rw [neededPermissions_eq, neededPermissions_eq, hsetstr]
      have hunk : unknownTypes (asStrings ts₁) = unknownTypes (asStrings ts₂) := by
        apply Finset.ext
        intro s
        rw [mem_unknownTypes, mem_unknownTypes, hstr s]
      rw [hperm, hunk]
    · simp [h₂]

/-- The resolver delegates to the analysis of whichever parse succeeded. -/
theorem resolve_eq_of_parsesTo (inp : TemplateInput) (v : Value)
    (h : parsesTo inp v) : resolve inp = analyzeTemplate v := by
  obtain ⟨j, y⟩ := inp
  rcases h with hj | ⟨hj, hy⟩
  · obtain rfl : j = some v := hj
    rfl
  · obtain rfl : j = none := hj
    obtain rfl : y = some v := hy
    rfl

/-- Whenever resource analysis succeeds, the output is the permission set
and unknown-type warnings of some list of collected type strings. -/
theorem analyzeResources_ok_shape (rkvs : List (String × Value))
    (P U : Finset String) (h : analyzeResources rkvs = .ok (P, U)) :
    ∃ ss : List String,
      P = neededPermissions ss ∧ U = unknownTypes ss := by
  rw [analyzeResources_eq] at h
  split at h
  · rw [finishAnalysis] at h
    split at h
    · cases h
    · split at h
      · simp only [Except.ok.injEq, Prod.mk.injEq] at h
        exact ⟨_, h.1.symm, h.2.symm⟩
      · cases h
  · cases h

/-- Whenever template analysis succeeds, the output is the permission set
and unknown-type warnings of some list of collected type strings. -/
theorem analyzeTemplate_ok_shape (v : Value) (P U : Finset String)
    (h : analyzeTemplate v = .ok (P, U)) :
    ∃ ss : List String,
      P = neededPermissions ss ∧ U = unknownTypes ss := by
  cases v with
  | obj kvs =>
    rw [analyzeTemplate] at h
    split at h
    · exact analyzeResources_ok_shape _ _ _ h
    · cases h
  | null => cases h
  | bool b => cases h
  | num n => cases h
  | str s => cases h
  | arr xs => cases h

/-- Whenever the resolver succeeds, the output is the permission set and
unknown-type warnings of some list of collected type strings. -/
theorem resolve_ok_shape (inp : TemplateInput) (P U : Finset String)
    (h : resolve inp = .ok (P, U)) :
    ∃ ss : List String,
      P = neededPermissions ss ∧ U = unknownTypes ss := by
  obtain ⟨j, y⟩ := inp
  cases j with
  | some v => exact analyzeTemplate_ok_shape v P U h
  | none =>
    cases y with
    | some v => exact analyzeTemplate_ok_shape v P U h
    | none => cases h

/-- Concrete evaluation of the resolver on the single-bucket template. -/
theorem resolve_s3Input : resolve s3Input = .ok (s3Perms, ∅) := rfl

/-- Claim C2: for every template that parses successfully and resolves,
the resulting permission set contains both fixed baseline sets — the
CloudFormation orchestration permissions and the pipeline permissions —
regardless of which resource types are declared. -/
theorem baselines_always_present (inp : TemplateInput) (P U : Finset String)
    (h : resolve inp = .ok (P, U)) :
    CLOUDFORMATION_PERMISSIONS.toFinset ⊆ P ∧
      PIPELINE_PERMISSIONS.toFinset ⊆ P := by
  obtain ⟨ss, rfl, -⟩ := resolve_ok_shape inp P U h
  rw [neededPermissions_eq]
  constructor
  · exact Finset.subset_union_left.trans Finset.subset_union_left
  · exact Finset.subset_union_right.trans Finset.subset_union_left

/-- Witness for C2 at the single-bucket template. -/
theorem baselines_always_present_witness :
    CLOUDFORMATION_PERMISSIONS.toFinset ⊆ s3Perms ∧
      PIPELINE_PERMISSIONS.toFinset ⊆ s3Perms :=
  baselines_always_present s3Input s3Perms ∅ rfl

/-- Claim C4: a template that parses to a document with an empty (or
absent) top-level `Resources` mapping makes the resolver fail with
`EmptyTemplate` rather than return only the baseline permissions. -/
theorem empty_template_error (inp : TemplateInput)
    (kvs : List (String × Value)) (hp : parsesTo inp (.obj kvs))
    (hres : lookupKey kvs "Resources" = none ∨
      lookupKey kvs "Resources" = some (.obj [])) :
    resolve inp = .error .EmptyTemplate := by
  rw [resolve_eq_of_parsesTo inp _ hp]
  rcases hres with h | h <;> simp only [analyzeTemplate, h] <;> rfl

/-- Witness for C4 at the document `{}` (no `Resources` key). -/
theorem empty_template_error_witness :
    resolve ⟨some (.obj []), none⟩ = .error .EmptyTemplate :=
  empty_template_error ⟨some (.obj []), none⟩ [] (.inl rfl) (.inl rfl)

/-- Claim C5: the resolver always attempts the JSON parse strategy first
and consults the YAML strategy only when the first fails; when neither
strategy parses the input, it fails with `TemplateParseFailure`. -/
theorem parse_fallback_order :
    (∀ (inp : TemplateInput) (v : Value),
        inp.jsonParse = some v → resolve inp = analyzeTemplate v) ∧
    (∀ (inp : TemplateInput) (v : Value),
        inp.jsonParse = none → inp.yamlParse = some v →
          resolve inp = analyzeTemplate v) ∧
    (∀ inp : TemplateInput,
        inp.jsonParse = none → inp.yamlParse = none →
          resolve inp = .error .TemplateParseFailure) := by
  refine ⟨?_, ?_, ?_⟩
  · intro inp v hj
    exact resolve_eq_of_parsesTo inp v (.inl hj)
  · intro inp v hj hy
    exact resolve_eq_of_parsesTo inp v (.inr ⟨hj, hy⟩)
  · intro inp hj hy
    obtain ⟨j, y⟩ := inp
    obtain rfl : j = none := hj
    obtain rfl : y = none := hy
    rfl

/-- Witness for C5 at a doubly unparseable input. -/
theorem parse_fallback_order_witness :
    resolve ⟨none, none⟩ = .error .TemplateParseFailure :=
  parse_fallback_order.2.2 ⟨none, none⟩ rfl rfl

/-- Claim C1: for every valid template whose single resource has Type
`AWS::S3::Bucket`, the resolver returns exactly the union of the baseline
orchestration set, the baseline pipeline set and the table entry for
`AWS::S3::Bucket`, with no unknown types. The set holds 24 distinct
permissions although the three lists hold 7 + 12 + 10 = 29 entries: the
5 s3 actions occurring in both the pipeline baseline and the bucket entry
are not duplicated. -/
theorem s3_bucket_template_permissions (inp : TemplateInput)
    (kvs dk : List (String × Value)) (nm : String)
    (hp : parsesTo inp (.obj kvs))
    (hres : lookupKey kvs "Resources" = some (.obj [(nm, .obj dk)]))
    (hty : lookupKey dk "Type" = some (.str "AWS::S3::Bucket")) :
    resolve inp =
      .ok (CLOUDFORMATION_PERMISSIONS.toFinset ∪ PIPELINE_PERMISSIONS.toFinset ∪
          ((tableLookup CFN_RESOURCE_TO_IAM_MAPPING "AWS::S3::Bucket").getD []).toFinset,
        ∅) ∧
    (CLOUDFORMATION_PERMISSIONS.toFinset ∪ PIPELINE_PERMISSIONS.toFinset ∪
        ((tableLookup CFN_RESOURCE_TO_IAM_MAPPING "AWS::S3::Bucket").getD []).toFinset).card
      = 24 ∧
    CLOUDFORMATION_PERMISSIONS.length + PIPELINE_PERMISSIONS.length +
        ((tableLookup CFN_RESOURCE_TO_IAM_MAPPING "AWS::S3::Bucket").getD []).length
      = 29 ∧
    (PIPELINE_PERMISSIONS.toFinset ∩
        ((tableLookup CFN_RESOURCE_TO_IAM_MAPPING "AWS::S3::Bucket").getD []).toFinset).card
      = 5 := by
  refine ⟨?_, by decide, by decide, by decide⟩
  rw [resolve_eq_of_parsesTo inp _ hp]
  simp only [analyzeTemplate, hres, Option.getD_some]
  simp only [analyzeResources, extractTypes, hty]
  rfl

/-- Witness for C1 at the concrete single-bucket template. -/
theorem s3_bucket_template_permissions_witness :
    resolve s3Input =
      .ok (CLOUDFORMATION_PERMISSIONS.toFinset ∪ PIPELINE_PERMISSIONS.toFinset ∪
          ((tableLookup CFN_RESOURCE_TO_IAM_MAPPING "AWS::S3::Bucket").getD []).toFinset,
        ∅) ∧
    (CLOUDFORMATION_PERMISSIONS.toFinset ∪ PIPELINE_PERMISSIONS.toFinset ∪
        ((tableLookup CFN_RESOURCE_TO_IAM_MAPPING "AWS::S3::Bucket").getD []).toFinset).card
      = 24 ∧
    CLOUDFORMATION_PERMISSIONS.length + PIPELINE_PERMISSIONS.length +
        ((tableLookup CFN_RESOURCE_TO_IAM_MAPPING "AWS::S3::Bucket").getD []).length
      = 29 ∧
    (PIPELINE_PERMISSIONS.toFinset ∩
        ((tableLookup CFN_RESOURCE_TO_IAM_MAPPING "AWS::S3::Bucket").getD []).toFinset).card
      = 5 :=
  s3_bucket_template_permissions s3Input
    [("Resources", .obj [("MyBucket", .obj [("Type", .str "AWS::S3::Bucket")])])]
    [("Type", .str "AWS::S3::Bucket")] "MyBucket" (.inl rfl) rfl rfl

/-- Claim C3: a template declaring one resource of a type present in the
static table and one resource of a type absent from it resolves
successfully: the result holds the known type's permissions plus both
baselines, and the unmapped type is recorded in the unknown-type warnings
rather than aborting the resolution. -/
theorem unknown_type_tolerated (inp : TemplateInput)
    (kvs dk1 dk2 : List (String × Value)) (n1 n2 t1 t2 : String)
    (ps : List String)
    (hp : parsesTo inp (.obj kvs))
    (hres : lookupKey kvs "Resources" =
      some (.obj [(n1, .obj dk1), (n2, .obj dk2)]))
    (hty1 : lookupKey dk1 "Type" = some (.str t1))
    (htab1 : tableLookup CFN_RESOURCE_TO_IAM_MAPPING t1 = some ps)
    (hty2 : lookupKey dk2 "Type" = some (.str t2))
    (htab2 : tableLookup CFN_RESOURCE_TO_IAM_MAPPING t2 = none)
    (hne2 : t2 ≠ "") :
    resolve inp =
      .ok (CLOUDFORMATION_PERMISSIONS.toFinset ∪ PIPELINE_PERMISSIONS.toFinset ∪
          ps.toFinset, {t2}) := by
  have hempty : tableLookup CFN_RESOURCE_TO_IAM_MAPPING "" = none := by decide
  have hne1 : t1 ≠ "" := by
    intro h
    rw [h, hempty] at htab1
    cases htab1
  have htr1 : truthy (.str t1) = true := by
    simp [truthy, hne1]
  have htr2 : truthy (.str t2) = true := by
    simp [truthy, hne2]
  rw [resolve_eq_of_parsesTo inp _ hp]
  simp only [analyzeTemplate, hres, Option.getD_some]
  simp only [analyzeResources, extractTypes, hty1, hty2, htr1, htr2, hashable,
    if_true]
  simp only [finishAnalysis, List.isEmpty_cons, List.all_cons, List.all_nil,
    isStr, Bool.and_true, Bool.and_self, if_true, if_false, Bool.true_and]
  simp only [asStrings, List.filterMap_cons, List.filterMap_nil]
  simp only [Bool.false_eq_true, if_false]
  simp only [neededPermissions, List.foldl_cons, List.foldl_nil, htab1, htab2,
    Option.getD_some, Option.getD_none, List.toFinset_nil, Finset.union_empty]
  simp only [unknownTypes, List.filter_cons, List.filter_nil, htab1, htab2,
    Option.isNone_some, Option.isNone_none, if_true, if_false,
    Bool.false_eq_true, List.toFinset_cons, List.toFinset_nil,
    insert_emptyc_eq]

/-- Witness for C3: one SQS queue plus one custom resource of unmapped
type. -/
theorem unknown_type_tolerated_witness :
    resolve ⟨some (.obj [("Resources", .obj
        [("Q", .obj [("Type", .str "AWS::SQS::Queue")]),
         ("X", .obj [("Type", .str "Custom::Widget")])])]), none⟩ =
      .ok (CLOUDFORMATION_PERMISSIONS.toFinset ∪ PIPELINE_PERMISSIONS.toFinset ∪
          ["sqs:CreateQueue", "sqs:DeleteQueue", "sqs:GetQueueAttributes",
           "sqs:SetQueueAttributes"].toFinset,
        {"Custom::Widget"}) :=
  unknown_type_tolerated
    ⟨some (.obj [("Resources", .obj
        [("Q", .obj [("Type", .str "AWS::SQS::Queue")]),
         ("X", .obj [("Type", .str "Custom::Widget")])])]), none⟩
    [("Resources", .obj
        [("Q", .obj [("Type", .str "AWS::SQS::Queue")]),
         ("X", .obj [("Type", .str "Custom::Widget")])])]
    [("Type", .str "AWS::SQS::Queue")] [("Type", .str "Custom::Widget")]
    "Q" "X" "AWS::SQS::Queue" "Custom::Widget"
    ["sqs:CreateQueue", "sqs:DeleteQueue", "sqs:GetQueueAttributes",
     "sqs:SetQueueAttributes"]
    (.inl rfl) rfl rfl rfl rfl rfl (by decide)

/-- Claim C9: permuting the resource declarations of a template does not
change the result of resolution — the outcome depends only on the set of
declared resource types and the static table. -/
theorem resource_order_independence (inp inp' : TemplateInput)
    (kvs kvs' rkvs rkvs' : List (String × Value))
    (hp : parsesTo inp (.obj kvs)) (hp' : parsesTo inp' (.obj kvs'))
    (hres : lookupKey kvs "Resources" = some (.obj rkvs))
    (hres' : lookupKey kvs' "Resources" = some (.obj rkvs'))
    (hperm : rkvs.Perm rkvs') :
    resolve inp' = resolve inp := by
  rw [resolve_eq_of_parsesTo inp _ hp, resolve_eq_of_parsesTo inp' _ hp']
  simp only [analyzeTemplate, hres, hres', Option.getD_some]
  rw [analyzeResources_eq, analyzeResources_eq]
  have hmem : ∀ p, p ∈ rkvs ↔ p ∈ rkvs' := fun p => hperm.mem_iff
  rw [all_eq_of_mem_iff goodEntry fun p => (hmem p).symm]
  by_cases h : rkvs.all goodEntry = true
  · rw [if_pos h, if_pos h]
    exact finishAnalysis_congr fun v => (hperm.filterMap entryType).mem_iff.symm
  · rw [if_neg h, if_neg h]

/-- Witness for C9: swapping the two resources of a two-resource
template. -/
theorem resource_order_independence_witness :
    resolve ⟨some (.obj [("Resources", .obj
        [("X", .obj [("Type", .str "Custom::Widget")]),
         ("Q", .obj [("Type", .str "AWS::SQS::Queue")])])]), none⟩ =
      resolve ⟨some (.obj [("Resources", .obj
        [("Q", .obj [("Type", .str "AWS::SQS::Queue")]),
         ("X", .obj [("Type", .str "Custom::Widget")])])]), none⟩ :=
  resource_order_independence
    ⟨some (.obj [("Resources", .obj
        [("Q", .obj [("Type", .str "AWS::SQS::Queue")]),
         ("X", .obj [("Type", .str "Custom::Widget")])])]), none⟩
    ⟨some (.obj [("Resources", .obj
        [("X", .obj [("Type", .str "Custom::Widget")]),
         ("Q", .obj [("Type", .str "AWS::SQS::Queue")])])]), none⟩
    [("Resources", .obj
        [("Q", .obj [("Type", .str "AWS::SQS::Queue")]),
         ("X", .obj [("Type", .str "Custom::Widget")])])]
    [("Resources", .obj
        [("X", .obj [("Type", .str "Custom::Widget")]),
         ("Q", .obj [("Type", .str "AWS::SQS::Queue")])])]
    [("Q", .obj [("Type", .str "AWS::SQS::Queue")]),
     ("X", .obj [("Type", .str "Custom::Widget")])]
    [("X", .obj [("Type", .str "Custom::Widget")]),
     ("Q", .obj [("Type", .str "AWS::SQS::Queue")])]
    (.inl rfl) (.inl rfl) rfl rfl
    (List.Perm.swap _ _ _)

/-- Claim C8: appending a second resource declaration whose `Type` equals
the `Type` of a declaration already present does not change the result of
resolution — resource types are collapsed to a set before the table
lookup. -/
theorem duplicate_type_no_change (inp inp' : TemplateInput)
    (kvs kvs' rkvs : List (String × Value)) (nm n' : String)
    (dk dk' : List (String × Value)) (t : Value)
    (hp : parsesTo inp (.obj kvs)) (hp' : parsesTo inp' (.obj kvs'))
    (hres : lookupKey kvs "Resources" = some (.obj rkvs))
    (hres' : lookupKey kvs' "Resources" =
      some (.obj (rkvs ++ [(n', .obj dk')])))
    (hmem : (nm, Value.obj dk) ∈ rkvs)
    (ht : lookupKey dk "Type" = some t)
    (ht' : lookupKey dk' "Type" = some t) :
    resolve inp' = resolve inp := by
  rw [resolve_eq_of_parsesTo inp _ hp, resolve_eq_of_parsesTo inp' _ hp']
  simp only [analyzeTemplate, hres, hres', Option.getD_some]
  rw [analyzeResources_eq, analyzeResources_eq, List.all_append]
  by_cases hall : rkvs.all goodEntry = true
  · have hgood : goodEntry (nm, Value.obj dk) = true :=
      List.all_eq_true.mp hall _ hmem
    rw [goodEntry] at hgood
    simp only [ht] at hgood
    have hgood' : goodEntry (n', Value.obj dk') = true := by
      rw [goodEntry]
      simp only [ht']
      exact hgood
    simp only [hall, hgood', List.all_cons, List.all_nil, Bool.and_true,
      Bool.true_and, if_true]
    rw [List.filterMap_append]
    by_cases htr : truthy t = true
    · have hts : entryType (n', Value.obj dk') = some t := by
        rw [entryType]
        simp only [ht', htr, if_true]
      have htmem : t ∈ rkvs.filterMap entryType := by
        refine List.mem_filterMap.mpr ⟨(nm, Value.obj dk), hmem, ?_⟩
        rw [entryType]
        simp only [ht, htr, if_true]
      simp only [List.filterMap_cons, hts, List.filterMap_nil]
      apply finishAnalysis_congr
      intro v
      simp only [List.mem_append, List.mem_singleton]
      constructor
      · rintro (hv | rfl)
        · exact hv
        · exact htmem
      · intro hv
        exact Or.inl hv
    · have hts : entryType (n', Value.obj dk') = none := by
        rw [entryType]
        simp only [ht', htr, if_false]
        simp [htr]
      simp only [List.filterMap_cons, hts, List.filterMap_nil,
        List.append_nil]
  · simp only [hall, Bool.false_and, Bool.false_eq_true, if_false]

/-- Witness for C8: a one-bucket template versus the same template with a
second bucket appended. -/
theorem duplicate_type_no_change_witness :
    resolve ⟨some (.obj [("Resources", .obj
        [("B1", .obj [("Type", .str "AWS::S3::Bucket")]),
         ("B2", .obj [("Type", .str "AWS::S3::Bucket")])])]), none⟩ =
      resolve ⟨some (.obj [("Resources", .obj
        [("B1", .obj [("Type", .str "AWS::S3::Bucket")])])]), none⟩ :=
  duplicate_type_no_change
    ⟨some (.obj [("Resources", .obj
        [("B1", .obj [("Type", .str "AWS::S3::Bucket")])])]), none⟩
    ⟨some (.obj [("Resources", .obj
        [("B1", .obj [("Type", .str "AWS::S3::Bucket")]),
         ("B2", .obj [("Type", .str "AWS::S3::Bucket")])])]), none⟩
    [("Resources", .obj [("B1", .obj [("Type", .str "AWS::S3::Bucket")])])]
    [("Resources", .obj
        [("B1", .obj [("Type", .str "AWS::S3::Bucket")]),
         ("B2", .obj [("Type", .str "AWS::S3::Bucket")])])]
    [("B1", .obj [("Type", .str "AWS::S3::Bucket")])]
    "B1" "B2" [("Type", .str "AWS::S3::Bucket")]
    [("Type", .str "AWS::S3::Bucket")] (.str "AWS::S3::Bucket")
    (.inl rfl) (.inl rfl) rfl rfl (List.Mem.head _) rfl rfl

/-- Claim C10: a resource declaration whose `Type` field is missing or is
the empty string is silently skipped — removing it from the template does
not change the result (so it contributes no permissions and no
unknown-type entry) — and a template all of whose declarations lack a
truthy `Type` fails with `EmptyTemplate`. -/
theorem typeless_resources_skipped :
    (∀ (inp inp' : TemplateInput) (kvs kvs' rkvs₁ rkvs₂ dk :
        List (String × Value)) (n : String),
      parsesTo inp (.obj kvs) → parsesTo inp' (.obj kvs') →
      lookupKey kvs "Resources" =
        some (.obj (rkvs₁ ++ (n, Value.obj dk) :: rkvs₂)) →
      lookupKey kvs' "Resources" = some (.obj (rkvs₁ ++ rkvs₂)) →
      (lookupKey dk "Type" = none ∨ lookupKey dk "Type" = some (.str "")) →
      resolve inp = resolve inp') ∧
    (∀ (inp : TemplateInput) (kvs rkvs : List (String × Value)),
      parsesTo inp (.obj kvs) →
      lookupKey kvs "Resources" = some (.obj rkvs) →
      (∀ p ∈ rkvs, ∃ dk : List (String × Value), p.2 = Value.obj dk ∧
        (lookupKey dk "Type" = none ∨ lookupKey dk "Type" = some (.str ""))) →
      resolve inp = .error .EmptyTemplate) := by
  have hskip : ∀ (dk : List (String × Value)),
      (lookupKey dk "Type" = none ∨ lookupKey dk "Type" = some (.str "")) →
      ∀ n : String, goodEntry (n, Value.obj dk) = true ∧
        entryType (n, Value.obj dk) = none := by
    intro dk hdk n
    rcases hdk with h | h
    · constructor
      · rw [goodEntry]
        simp only [h]
      · rw [entryType]
        simp only [h]
    · constructor
      · rw [goodEntry]
        simp only [h, truthy, Bool.not_false]
        rfl
      · rw [entryType]
        simp only [h, truthy]
        rfl
  constructor
  · intro inp inp' kvs kvs' rkvs₁ rkvs₂ dk n hp hp' hres hres' hdk
    obtain ⟨hgood, hnone⟩ := hskip dk hdk n
    rw [resolve_eq_of_parsesTo inp _ hp, resolve_eq_of_parsesTo inp' _ hp']
    simp only [analyzeTemplate, hres, hres', Option.getD_some]
    rw [analyzeResources_eq, analyzeResources_eq]
    simp only [List.all_append, List.all_cons, hgood, Bool.true_and,
      List.filterMap_append, List.filterMap_cons, hnone]
  · intro inp kvs rkvs hp hres hall
    rw [resolve_eq_of_parsesTo inp _ hp]
    simp only [analyzeTemplate, hres, Option.getD_some]
    rw [analyzeResources_eq]
    have hgood : rkvs.all goodEntry = true := by
      rw [List.all_eq_true]
      intro p hpmem
      obtain ⟨dk, hpd, hdk⟩ := hall p hpmem
      obtain ⟨n, d⟩ := p
      simp only at hpd
      rw [hpd]
      exact (hskip dk hdk n).1
    have hnil : rkvs.filterMap entryType = [] := by
      rw [List.filterMap_eq_nil_iff]
      intro p hpmem
      obtain ⟨dk, hpd, hdk⟩ := hall p hpmem
      obtain ⟨n, d⟩ := p
      simp only at hpd
      rw [hpd]
      exact (hskip dk hdk n).2
    rw [if_pos hgood, hnil]
    rfl

/-- Witness for C10: part one at a bucket template with an extra typeless
resource; part two at a template whose only resource has no `Type`. -/
theorem typeless_resources_skipped_witness :
    (resolve ⟨some (.obj [("Resources", .obj
        [("A", .obj [("Type", .str "AWS::S3::Bucket")]),
         ("B", .obj [])])]), none⟩ =
      resolve ⟨some (.obj [("Resources", .obj
        [("A", .obj [("Type", .str "AWS::S3::Bucket")])])]), none⟩) ∧
    resolve ⟨some (.obj [("Resources", .obj [("B", .obj [])])]), none⟩ =
      .error .EmptyTemplate := by
  constructor
  · exact typeless_resources_skipped.1
      ⟨some (.obj [("Resources", .obj
        [("A", .obj [("Type", .str "AWS::S3::Bucket")]),
         ("B", .obj [])])]), none⟩
      ⟨some (.obj [("Resources", .obj
        [("A", .obj [("Type", .str "AWS::S3::Bucket")])])]), none⟩
      [("Resources", .obj
        [("A", .obj [("Type", .str "AWS::S3::Bucket")]), ("B", .obj [])])]
      [("Resources", .obj [("A", .obj [("Type", .str "AWS::S3::Bucket")])])]
      [("A", .obj [("Type", .str "AWS::S3::Bucket")])] [] [] "B"
      (.inl rfl) (.inl rfl) rfl rfl (.inl rfl)
  · exact typeless_resources_skipped.2
      ⟨some (.obj [("Resources", .obj [("B", .obj [])])]), none⟩
      [("Resources", .obj [("B", .obj [])])] [("B", .obj [])]
      (.inl rfl) rfl
      (by
        intro p hpmem
        rw [List.mem_singleton] at hpmem
        rw [hpmem]
        exact ⟨[], rfl, .inl rfl⟩)

/-- A well-shaped resource declaration never makes the extraction loop
raise. -/
theorem goodEntry_of_wellShaped (n : String) (d : Value)
    (h : wellShapedResource d = true) : goodEntry (n, d) = true := by
  cases d with
  | obj dkvs =>
    rw [wellShapedResource] at h
    rw [goodEntry]
    cases hT : lookupKey dkvs "Type" with
    | none => simp [hT]
    | some t =>
      simp only [hT] at h ⊢
      cases htr : truthy t with
      | false => simp [htr]
      | true =>
        simp only [htr, Bool.not_true, Bool.false_or] at h ⊢
        cases t <;> simp_all [isStr, hashable]
  | null => simp [wellShapedResource] at h
  | bool b => simp [wellShapedResource] at h
  | num n' => simp [wellShapedResource] at h
  | str s => simp [wellShapedResource] at h
  | arr xs => simp [wellShapedResource] at h

/-- The truthy type collected from a well-shaped resource declaration is
a string. -/
theorem isStr_of_entryType (n : String) (d : Value) (t : Value)
    (h : wellShapedResource d = true) (he : entryType (n, d) = some t) :
    isStr t = true := by
  cases d with
  | obj dkvs =>
    rw [wellShapedResource] at h
    rw [entryType] at he
    cases hT : lookupKey dkvs "Type" with
    | none => simp [hT] at he
    | some t' =>
      simp only [hT] at h he
      cases htr : truthy t' with
      | false => simp [htr] at he
      | true =>
        simp only [htr, if_true, Option.some.injEq] at he
        simp only [htr, Bool.not_true, Bool.false_or] at h
        rw [← he]
        exact h
  | null => simp [wellShapedResource] at h
  | bool b => simp [wellShapedResource] at h
  | num n' => simp [wellShapedResource] at h
  | str s => simp [wellShapedResource] at h
  | arr xs => simp [wellShapedResource] at h

/-- On a well-shaped parsed document, the only failure the analysis can
report is `EmptyTemplate`. -/
theorem wellShaped_error_kinds (v : Value) (e : ErrorKind)
    (hw : wellShaped v = true) (h : analyzeTemplate v = .error e) :
    e = .EmptyTemplate := by
  cases v with
  | obj kvs =>
    rw [wellShaped] at hw
    rw [analyzeTemplate] at h
    split at hw
    case _ rkvs heq =>
      simp only [heq] at h
      rw [analyzeResources_eq] at h
      have hgood : rkvs.all goodEntry = true := by
        rw [List.all_eq_true] at hw ⊢
        intro p hpmem
        obtain ⟨n, d⟩ := p
        exact goodEntry_of_wellShaped n d (hw _ hpmem)
      rw [if_pos hgood, finishAnalysis] at h
      split at h
      · injection h with h'
        exact h'.symm
      · have hstr : (rkvs.filterMap entryType).all isStr = true := by
          rw [List.all_eq_true]
          intro t htmem
          obtain ⟨p, hpmem, hpt⟩ := List.mem_filterMap.mp htmem
          obtain ⟨n, d⟩ := p
          exact isStr_of_entryType n d t
            (List.all_eq_true.mp hw _ hpmem) hpt
        rw [if_pos hstr] at h
        cases h
    case _ heq => cases hw
  | null => cases hw
  | bool b => cases hw
  | num n => cases hw
  | str s => cases hw
  | arr xs => cases hw

/-- Counterexample to claim C6 as stated: a document that parses (via the
JSON strategy) to an array rather than a mapping of resource declarations
is not normalized into `TemplateParseFailure` or `EmptyTemplate`: it is
reported through the catch-all analysis-error path of line 255, a third
failure kind. -/
theorem failure_kinds_counterexample :
    resolve ⟨some (.arr [.num 1]), none⟩ = .error .AnalysisError ∧
    ErrorKind.AnalysisError ≠ ErrorKind.TemplateParseFailure ∧
    ErrorKind.AnalysisError ≠ ErrorKind.EmptyTemplate :=
  ⟨rfl, by decide, by decide⟩

/-- Claim C6 (amended): failures are reported as `TemplateParseFailure`
or `EmptyTemplate` for every input whose successful parses are well-shaped
documents (a mapping whose `Resources` entries are mappings with string
`Type` fields when truthy); a parse of any other shape is reported through
the distinct catch-all analysis-error path instead. -/
theorem failure_kinds_wellShaped (inp : TemplateInput) (e : ErrorKind)
    (hj : ∀ v, inp.jsonParse = some v → wellShaped v = true)
    (hy : ∀ v, inp.yamlParse = some v → wellShaped v = true)
    (h : resolve inp = .error e) :
    e = .TemplateParseFailure ∨ e = .EmptyTemplate := by
  obtain ⟨j, y⟩ := inp
  cases j with
  | some v => exact Or.inr (wellShaped_error_kinds v e (hj v rfl) h)
  | none =>
    cases y with
    | some v => exact Or.inr (wellShaped_error_kinds v e (hy v rfl) h)
    | none =>
      injection h with h'
      exact Or.inl h'.symm

/-- Witness for the amended C6 at the empty-document input. -/
theorem failure_kinds_wellShaped_witness :
    ErrorKind.EmptyTemplate = ErrorKind.TemplateParseFailure ∨
      ErrorKind.EmptyTemplate = ErrorKind.EmptyTemplate :=
  failure_kinds_wellShaped ⟨some (.obj []), none⟩ .EmptyTemplate
    (fun v hv => by cases hv; rfl) (fun v hv => by cases hv) rfl

/-- Counterexample to claim C7 as stated: the permission set of the
single-bucket template admits a duplicate-free enumeration — one of the
orders Python's `list(needed_permissions)` may hand to role creation —
that is not sorted. -/
theorem action_list_sorted_counterexample :
    resolve s3Input = .ok (s3Perms, ∅) ∧
    IsActionList s3Perms revActionList ∧
    ¬ revActionList.Sorted (· ≤ ·) := by
  refine ⟨rfl, ⟨by decide, by decide⟩, ?_⟩
  intro hs
  rw [revActionList] at hs
  have h2 := (List.sorted_cons.mp hs).1 "s3:PutEncryptionConfiguration"
    (by decide)
  rw [String.le_iff_toList_le] at h2
  revert h2
  decide

/-- Claim C7 (amended): the permission sequence the resolver prints
(line 199) is sorted; the Action list handed to role creation enumerates
the same permission set — set-equal to the printed sequence — but in
unspecified order. -/
theorem printed_permissions_sorted (inp : TemplateInput)
    (P U : Finset String) (h : resolve inp = .ok (P, U)) :
    (printedPermissions P).Sorted (· ≤ ·) ∧
    (printedPermissions P).toFinset = P ∧
    ∀ l, IsActionList P l → l.toFinset = (printedPermissions P).toFinset := by
  refine ⟨Finset.sort_sorted _ _, Finset.sort_toFinset _ _, ?_⟩
  intro l hl
  rw [printedPermissions, Finset.sort_toFinset]
  exact hl.2

/-- Witness for the amended C7 at the single-bucket template. -/
theorem printed_permissions_sorted_witness :
    (printedPermissions s3Perms).Sorted (· ≤ ·) ∧
    (printedPermissions s3Perms).toFinset = s3Perms ∧
    ∀ l, IsActionList s3Perms l →
      l.toFinset = (printedPermissions s3Perms).toFinset :=
  printed_permissions_sorted s3Input s3Perms ∅ rfl

end PipelineDeploy
